import Mathlib

/-
  Shallow embedding of the V-nashak license server (src/server.js):
  allow-list validation, license-key generation, the /send-license
  issuance handler and the /activate-license activation handler.

  Mutable server state (the validUserIds / usedUserIds sets and the
  MongoDB License collection) is passed explicitly.  Request bodies are
  records of `Option String` fields; a missing field is `none` and JS
  falsiness of a string (`!field`) holds for a missing or empty field.
-/

namespace VNashak

/-- One document of the `License` Mongo collection, as created by the
/send-license handler and mutated by /activate-license.  `machineId`
and `activatedAt` are unset (`none`) until activation. -/
structure License where
  email : String
  userId : String
  name : String
  phoneNumber : String
  licenseKey : String
  status : String
  machineId : Option String
  activatedAt : Option Nat
deriving DecidableEq

/-- The server-side mutable state used by /send-license: the loaded
allow-list (`validUserIds`), the consumed ids (`usedUserIds`, kept in
memory and mirrored to used-user-ids.json) and the License collection. -/
structure ServerState where
  validUserIds : List String
  usedUserIds : List String
  licenses : List License
deriving DecidableEq

/-- `isUserIdValid` from server.js: membership in the loaded allow-list. -/
def isUserIdValid (st : ServerState) (userId : String) : Bool :=
  st.validUserIds.contains userId

/-- `isUserIdAlreadyUsed` from server.js: membership in the used-id set. -/
def isUserIdAlreadyUsed (st : ServerState) (userId : String) : Bool :=
  st.usedUserIds.contains userId

/-- `markUserIdAsUsed` from server.js: adds the id to the used set (and
persists the set to disk, which the state embedding absorbs). -/
def markUserIdAsUsed (st : ServerState) (userId : String) : ServerState :=
  { st with usedUserIds := st.usedUserIds ++ [userId] }

/-- Result of `validateUserIdDirectAndUnused`: a `valid` flag plus the
user-facing message on failure (quote punctuation of the JS message
elided). -/
structure ValidationResult where
  valid : Bool
  message : String
deriving DecidableEq

/-- `validateUserIdDirectAndUnused` from server.js: valid iff on the
allow-list and not yet used, with distinct messages for the two
failure reasons. -/
def validateUserIdDirectAndUnused (st : ServerState) (userId : String) : ValidationResult :=
  if !isUserIdValid st userId then
    { valid := false, message := "User ID " ++ userId ++ " is not a valid ID." }
  else if isUserIdAlreadyUsed st userId then
    { valid := false, message := "User ID " ++ userId ++ " has already been used." }
  else
    { valid := true, message := "" }

/-- The character emitted for one base-36 digit of
`Math.random().toString(36)` after `.toUpperCase()`: digits 0-9 map to
the characters 0-9 and digits 10-35 to A-Z. -/
def base36Char (d : Fin 36) : Char :=
  if d.val < 10 then Char.ofNat (48 + d.val) else Char.ofNat (55 + d.val)

/-- One `segment()` of `generateUniqueLicenseKey`:
`Math.random().toString(36).substring(2, 6).toUpperCase()`.  A draw of
`Math.random()` is represented by the list of fractional base-36 digits
its `toString(36)` prints after the leading `0.` (the printed expansion
is finite and can have fewer than four digits); `substring(2, 6)` keeps
at most the first four of them. -/
def segment (draw : List (Fin 36)) : String :=
  String.mk ((draw.take 4).map base36Char)

/-- One candidate key of `generateUniqueLicenseKey`:
three segments joined by hyphens. -/
def makeKey (d1 d2 d3 : List (Fin 36)) : String :=
  segment d1 ++ "-" ++ segment d2 ++ "-" ++ segment d3

/-- `License.findOne(\x7b licenseKey: key \x7d)` viewed as an existence
check against the collection. -/
def existsKey (store : List License) (k : String) : Bool :=
  store.any (fun l => l.licenseKey == k)

/-- The do/while loop of `generateUniqueLicenseKey`: take candidate
`i`, return it if `existsFn` reports it absent, otherwise move to the
next candidate.  The JS loop has no bound; `fuel` makes the embedding
total, with `none` meaning the loop did not finish within `fuel`
iterations. -/
def genLoop (candidates : Nat → String) (existsFn : String → Bool) : Nat → Nat → Option String
  | _, 0 => none
  | i, fuel + 1 =>
      if existsFn (candidates i) then genLoop candidates existsFn (i + 1) fuel
      else some (candidates i)

/-- `generateUniqueLicenseKey` from server.js: candidate `i` is built
from the three `Math.random()` draws numbered `3*i`, `3*i+1`, `3*i+2`
of the stream `randomDraws`, and the loop exits on the first candidate
the existence check reports absent. -/
def generateUniqueLicenseKey (randomDraws : Nat → List (Fin 36))
    (existsFn : String → Bool) (fuel : Nat) : Option String :=
  genLoop (fun i => makeKey (randomDraws (3 * i)) (randomDraws (3 * i + 1)) (randomDraws (3 * i + 2)))
    existsFn 0 fuel

/-- JS falsiness of a request field: missing (`none`) or the empty
string. -/
def falsy : Option String → Bool
  | none => true
  | some s => s == ""

/-- Body of a /send-license request. -/
structure IssueRequest where
  email : Option String
  userId : Option String
  name : Option String
  phoneNumber : Option String
deriving DecidableEq

/-- Per-request environment of /send-license: whether EMAIL_USER and
EMAIL_PASS are configured, whether `transporter.sendMail` succeeds,
the `Math.random()` draw stream feeding the key generator, the fuel
bound for the generator loop, and `interference`: License documents
written to the shared collection by concurrent requests between this
request's `findOne` uniqueness check and its `save()` (empty in a
race-free run). -/
structure IssueEnv where
  emailConfigured : Bool
  sendMailOk : Bool
  randomDraws : Nat → List (Fin 36)
  fuel : Nat
  interference : List License

/-- Outcome of /send-license: the HTTP 400 for missing fields, the 400
carrying the validation message, the two 200 success shapes (email not
configured / email sent), and the 500 produced by the catch block. -/
inductive IssueResult where
  | inputInvalid
  | validationFailed (message : String)
  | successNoEmail (licenseKey : String)
  | successEmailSent
  | internalError
deriving DecidableEq

/-- The License document built by `new License(\x7b...\x7d)` in the
/send-license handler: owner snapshot, fresh key, status ASSIGNED,
no machine binding, no activation time. -/
def mkLicense (req : IssueRequest) (key : String) : License :=
  { email := req.email.getD "", userId := req.userId.getD "",
    name := req.name.getD "", phoneNumber := req.phoneNumber.getD "",
    licenseKey := key, status := "ASSIGNED",
    machineId := none, activatedAt := none }

/-- The /send-license handler from server.js.  `newLicense.save()` is
modelled from the spec as the atomic insert-if-absent of
`LicenseStore.insertIfAbsent` (the `models/License` schema file is not
part of the source tree): the save fails exactly when the key is
already present in the shared collection — the request's view
`st.licenses` together with the concurrently raced-in
`env.interference` — and a failed save throws into the catch block
(HTTP 500) without inserting.  After a successful save the handler
either returns success immediately (email unconfigured, id marked
used), or sends the mail and marks the id used on success; a sendMail
failure throws into the catch block with the record already saved and
the id never marked used. -/
def sendLicense (env : IssueEnv) (st : ServerState) (req : IssueRequest) :
    IssueResult × ServerState :=
  if falsy req.email || falsy req.userId || falsy req.name || falsy req.phoneNumber then
    (IssueResult.inputInvalid, st)
  else if !(validateUserIdDirectAndUnused st (req.userId.getD "")).valid then
    (IssueResult.validationFailed (validateUserIdDirectAndUnused st (req.userId.getD "")).message, st)
  else
    match generateUniqueLicenseKey env.randomDraws (existsKey st.licenses) env.fuel with
    | none => (IssueResult.internalError, st)
    | some newLicenseKey =>
        if existsKey (st.licenses ++ env.interference) newLicenseKey then
          (IssueResult.internalError, st)
        else if !env.emailConfigured then
          (IssueResult.successNoEmail newLicenseKey,
            markUserIdAsUsed
              { st with licenses := st.licenses ++ [mkLicense req newLicenseKey] }
              (req.userId.getD ""))
        else if env.sendMailOk then
          (IssueResult.successEmailSent,
            markUserIdAsUsed
              { st with licenses := st.licenses ++ [mkLicense req newLicenseKey] }
              (req.userId.getD ""))
        else
          (IssueResult.internalError,
            { st with licenses := st.licenses ++ [mkLicense req newLicenseKey] })

/-- Body of an /activate-license request. -/
structure ActivateRequest where
  email : Option String
  licenseKey : Option String
  machineId : Option String
deriving DecidableEq

/-- Outcome of /activate-license: 400 for missing fields, the JSON
error responses for unknown key / wrong email / wrong machine, the
ALREADY_ACTIVATED idempotent success and the VALID success. -/
inductive ActivateResult where
  | inputInvalid
  | invalidKey
  | emailMismatch
  | alreadyActivated
  | machineMismatch
  | activated
deriving DecidableEq

/-- `License.findOne(\x7b licenseKey \x7d)`: first document with the
given key. -/
def findByKey (store : List License) (k : String) : Option License :=
  store.find? (fun l => l.licenseKey == k)

/-- `storedLicense.save()` after mutating the found document: replaces
the first document carrying the key. -/
def replaceFirst : List License → String → License → List License
  | [], _, _ => []
  | l :: ls, k, r => if l.licenseKey == k then r :: ls else l :: replaceFirst ls k r

/-- The /activate-license handler from server.js: missing-field check,
lookup by key, email comparison, then either the ACTIVATED branch
(idempotent success on the bound machine, machine-mismatch error
otherwise) or the write branch that sets machineId, status ACTIVATED
and activatedAt and saves. -/
def activateLicense (now : Nat) (store : List License) (req : ActivateRequest) :
    ActivateResult × List License :=
  if falsy req.email || falsy req.licenseKey || falsy req.machineId then
    (ActivateResult.inputInvalid, store)
  else
    match findByKey store (req.licenseKey.getD "") with
    | none => (ActivateResult.invalidKey, store)
    | some stored =>
        if stored.email != req.email.getD "" then (ActivateResult.emailMismatch, store)
        else if stored.status == "ACTIVATED" then
          if stored.machineId == some (req.machineId.getD "") then
            (ActivateResult.alreadyActivated, store)
          else (ActivateResult.machineMismatch, store)
        else
          (ActivateResult.activated,
            replaceFirst store (req.licenseKey.getD "")
              { stored with
                machineId := some (req.machineId.getD "")
                status := "ACTIVATED"
                activatedAt := some now })

/-- Concrete fixture: fresh server state with the single eligible,
unconsumed allow-list id U123 and an empty License collection. -/
def baseState : ServerState :=
  { validUserIds := ["U123"], usedUserIds := [], licenses := [] }

/-- Concrete fixture: a fully populated /send-license request body. -/
def fullRequest : IssueRequest :=
  { email := some "a@b.com", userId := some "U123", name := some "Alice",
    phoneNumber := some "5550001111" }

/-- Concrete fixture: every `Math.random()` draw prints the four
base-36 digits aaaa, so every candidate key is AAAA-AAAA-AAAA. -/
def drawsA : Nat → List (Fin 36) := fun _ => [10, 10, 10, 10]

/-- Concrete fixture: the first three draws print aaaa and all later
draws print bbbb, so candidate 0 is AAAA-AAAA-AAAA and candidate 1 is
BBBB-BBBB-BBBB. -/
def drawsAB : Nat → List (Fin 36) := fun n => if n < 3 then [10, 10, 10, 10] else [11, 11, 11, 11]

/-- Concrete fixture: environment where email is configured but
`sendMail` fails. -/
def mailFailEnv : IssueEnv :=
  { emailConfigured := true, sendMailOk := false, randomDraws := drawsA,
    fuel := 1, interference := [] }

/-- Concrete fixture: environment where email is configured and
`sendMail` succeeds. -/
def mailOkEnv : IssueEnv :=
  { emailConfigured := true, sendMailOk := true, randomDraws := drawsA,
    fuel := 1, interference := [] }

/-- Concrete fixture: a License document raced into the collection by
a concurrent request, occupying the key AAAA-AAAA-AAAA. -/
def racedRecord : License :=
  { email := "x@y.com", userId := "U999", name := "Mallory",
    phoneNumber := "5550009999", licenseKey := "AAAA-AAAA-AAAA",
    status := "ASSIGNED", machineId := none, activatedAt := none }

/-- Concrete fixture: environment (email unconfigured) in which the
key AAAA-AAAA-AAAA is raced in between the uniqueness pre-check and
the save, while the next candidate BBBB-BBBB-BBBB stays free. -/
def raceEnv : IssueEnv :=
  { emailConfigured := false, sendMailOk := true, randomDraws := drawsAB,
    fuel := 2, interference := [racedRecord] }

/-- Concrete fixture: a freshly issued (ASSIGNED, unbound) record. -/
def assignedRecord : License :=
  { email := "a@b.com", userId := "U123", name := "Alice",
    phoneNumber := "5550001111", licenseKey := "AAAA-AAAA-AAAA",
    status := "ASSIGNED", machineId := none, activatedAt := none }

/-- Concrete fixture: the same record after activation on MACH-1. -/
def activatedRecord : License :=
  { assignedRecord with
    status := "ACTIVATED"
    machineId := some "MACH-1"
    activatedAt := some 100 }

/-- Concrete fixture: an activate request from the owner for MACH-1. -/
def ownerActivateReq : ActivateRequest :=
  { email := some "a@b.com", licenseKey := some "AAAA-AAAA-AAAA",
    machineId := some "MACH-1" }

/-- The post-image of the /activate-license write branch: the stored
document with machineId bound, status ACTIVATED and activatedAt set. -/
def activatedOf (stored : License) (m : String) (now : Nat) : License :=
  { stored with machineId := some m, status := "ACTIVATED", activatedAt := some now }

end VNashak

namespace VNashak

/-- The generator loop only answers with a candidate its existence
check reported absent, having seen every earlier candidate as present. -/
theorem genLoop_spec (candidates : Nat → String) (existsFn : String → Bool) :
    ∀ fuel i k, genLoop candidates existsFn i fuel = some k →
      existsFn k = false ∧ ∃ n, i ≤ n ∧ k = candidates n ∧
        ∀ j, i ≤ j → j < n → existsFn (candidates j) = true := by
  intro fuel
  induction fuel with
  | zero => intro i k h; simp [genLoop] at h
  | succ fuel ih =>
      intro i k h
      unfold genLoop at h
      by_cases hc : existsFn (candidates i) = true
      · rw [if_pos hc] at h
        obtain ⟨hk, n, hin, hkn, hall⟩ := ih (i + 1) k h
        refine ⟨hk, n, by omega, hkn, ?_⟩
        intro j hij hjn
        rcases Nat.eq_or_lt_of_le hij with he | hl
        · rw [← he]; exact hc
        · exact hall j hl hjn
      · rw [if_neg hc] at h
        have hf : existsFn (candidates i) = false := by
          cases hval : existsFn (candidates i)
          · rfl
          · exact absurd hval hc
        injection h with h
        refine ⟨h ▸ hf, i, Nat.le_refl i, h.symm, ?_⟩
        intro j h1 h2
        omega

/-- A successful key lookup returns a record carrying that key. -/
theorem findByKey_some_key (store : List License) (k : String) (lic : License)
    (h : findByKey store k = some lic) : lic.licenseKey = k := by
  have hp := List.find?_some h
  exact eq_of_beq hp

/-- Replacing the looked-up record by one carrying the same key makes
subsequent lookups of that key return the replacement. -/
theorem findByKey_replaceFirst (k : String) (r : License) (hr : r.licenseKey = k) :
    ∀ store lic, findByKey store k = some lic →
      findByKey (replaceFirst store k r) k = some r := by
  intro store
  induction store with
  | nil => intro lic h; simp [findByKey] at h
  | cons x xs ih =>
      intro lic h
      by_cases hx : (x.licenseKey == k) = true
      · unfold replaceFirst
        rw [if_pos hx]
        unfold findByKey
        rw [List.find?_cons_of_pos (p := fun l : License => l.licenseKey == k) _ (by simpa using hr)]
      · unfold replaceFirst
        rw [if_neg hx]
        unfold findByKey at h ⊢
        rw [List.find?_cons_of_neg (p := fun l : License => l.licenseKey == k) _ hx] at h ⊢
        exact ih lic h

end VNashak

namespace VNashak

/-- Claim C3 (code bug exhibited): when every `Math.random()` draw is
0.5 — whose `toString(36)` is the three-character string 0.i, so
`substring(2, 6)` keeps the single digit i — the generator produces
the key I-I-I, which has length 5, not the 14-character
XXXX-XXXX-XXXX shape required by the claim and by the function's own
doc comment. -/
theorem generateUniqueLicenseKey_short_key :
    generateUniqueLicenseKey (fun _ => [(18 : Fin 36)]) (existsKey []) 1 = some "I-I-I"
      ∧ ("I-I-I").length ≠ 14 := by
  refine ⟨?_, ?_⟩ <;> decide

/-- Claim C1 counterexample: with email configured and `sendMail`
failing, a /send-license request for the eligible, unconsumed id U123
persists the license record and then throws in the mail step, so the
handler answers HTTP 500 with the record saved but the identity never
marked used — a delivery failure after persistence does leave the
identity un-consumed. -/
theorem sendLicense_mail_failure_cex :
    (sendLicense mailFailEnv baseState fullRequest).1 = IssueResult.internalError
      ∧ ((sendLicense mailFailEnv baseState fullRequest).2.licenses.any
          fun l => l.userId == "U123") = true
      ∧ ((sendLicense mailFailEnv baseState fullRequest).2.usedUserIds.contains "U123") = false := by
  refine ⟨?_, ?_, ?_⟩ <;> decide

/-- Claim C2 counterexample: the first candidate AAAA-AAAA-AAAA passes
the generator's `findOne` pre-check (the request's collection view is
empty) but a concurrent request has raced that key in, so the save
fails; although fuel remains and the regenerated candidate
BBBB-BBBB-BBBB would be free, the handler answers HTTP 500 with no
record persisted — insertion failure is not retried. -/
theorem sendLicense_no_insert_retry_cex :
    sendLicense raceEnv baseState fullRequest = (IssueResult.internalError, baseState)
      ∧ existsKey (baseState.licenses ++ raceEnv.interference) "BBBB-BBBB-BBBB" = false := by
  refine ⟨?_, ?_⟩ <;> decide

/-- Claim C5 counterexample: on an ACTIVATED record bound to MACH-1,
an activate call with a different machine MACH-2 but a non-matching
email returns the email-mismatch error, not MachineMismatch, so the
claim fails when quantified over arbitrary calls carrying a different
machineId. -/
theorem activate_wrong_email_overrides_machine_cex :
    activateLicense 0 [activatedRecord]
        { email := some "evil@x.com", licenseKey := some "AAAA-AAAA-AAAA",
          machineId := some "MACH-2" }
      = (ActivateResult.emailMismatch, [activatedRecord])
      ∧ ActivateResult.emailMismatch ≠ ActivateResult.machineMismatch := by
  refine ⟨?_, ?_⟩ <;> decide

end VNashak

namespace VNashak

/-- Claim C7: a key returned by `generateUniqueLicenseKey` was reported
absent by the existence check at the moment of its check, and every
candidate generated before it was reported present. -/
theorem generateUniqueLicenseKey_spec (randomDraws : Nat → List (Fin 36))
    (existsFn : String → Bool) (fuel : Nat) (k : String)
    (h : generateUniqueLicenseKey randomDraws existsFn fuel = some k) :
    existsFn k = false ∧
      ∃ n, k = makeKey (randomDraws (3 * n)) (randomDraws (3 * n + 1)) (randomDraws (3 * n + 2)) ∧
        ∀ j, j < n →
          existsFn (makeKey (randomDraws (3 * j)) (randomDraws (3 * j + 1)) (randomDraws (3 * j + 2))) = true := by
  unfold generateUniqueLicenseKey at h
  obtain ⟨hk, n, _, hkn, hall⟩ := genLoop_spec _ existsFn fuel 0 k h
  exact ⟨hk, n, hkn, fun j hj => hall j (Nat.zero_le j) hj⟩

/-- Claim C7 witness: concrete run in which the first candidate is
occupied and the returned second candidate is absent from the store. -/
theorem generateUniqueLicenseKey_spec_witness :
    existsKey [racedRecord] "BBBB-BBBB-BBBB" = false :=
  (generateUniqueLicenseKey_spec drawsAB (existsKey [racedRecord]) 2 "BBBB-BBBB-BBBB" (by decide)).1

/-- Claim C8: the eligibility check succeeds exactly when the id is on
the allow-list and not yet consumed, and the two failure cases differ
only in the returned message, which does distinguish them. -/
theorem validateUserId_eligibility (st : ServerState) (userId : String) :
    (validateUserIdDirectAndUnused st userId).valid
        = (isUserIdValid st userId && !isUserIdAlreadyUsed st userId)
      ∧ (validateUserIdDirectAndUnused st userId).message
        = (if !isUserIdValid st userId then "User ID " ++ userId ++ " is not a valid ID."
           else if isUserIdAlreadyUsed st userId then "User ID " ++ userId ++ " has already been used."
           else "")
      ∧ ("User ID " ++ userId ++ " is not a valid ID.")
          ≠ ("User ID " ++ userId ++ " has already been used.") := by
  refine ⟨?_, ?_, ?_⟩
  · cases hv : isUserIdValid st userId <;> cases hu : isUserIdAlreadyUsed st userId <;>
      simp [validateUserIdDirectAndUnused, hv, hu]
  · cases hv : isUserIdValid st userId <;> cases hu : isUserIdAlreadyUsed st userId <;>
      simp [validateUserIdDirectAndUnused, hv, hu]
  · intro hcontra
    have h2 := congrArg String.length hcontra
    simp only [String.length_append] at h2
    rw [show (" is not a valid ID." : String).length = 19 from rfl] at h2
    rw [show (" has already been used." : String).length = 23 from rfl] at h2
    omega

/-- Claim C8 witness: the check accepts the fresh allow-listed id U123. -/
theorem validateUserId_eligibility_witness :
    (validateUserIdDirectAndUnused baseState "U123").valid = true := by
  have h := (validateUserId_eligibility baseState "U123").1
  rw [h]
  decide

/-- Every run of /activate-license either takes the write branch
(answering `activated`) or returns the store untouched. -/
theorem activateLicense_write_or_unchanged (now : Nat) (store : List License)
    (req : ActivateRequest) :
    (activateLicense now store req).1 = ActivateResult.activated
      ∨ (activateLicense now store req).2 = store := by
  unfold activateLicense
  repeat' split
  all_goals first
  | exact Or.inl rfl
  | exact Or.inr rfl

/-- Claim C10: whenever /activate-license answers with one of the
rejection results — unknown key, email mismatch or machine mismatch —
it has performed no write: the store is returned exactly as it was. -/
theorem activate_failure_no_write (now : Nat) (store : List License) (req : ActivateRequest)
    (h : (activateLicense now store req).1 = ActivateResult.invalidKey
       ∨ (activateLicense now store req).1 = ActivateResult.emailMismatch
       ∨ (activateLicense now store req).1 = ActivateResult.machineMismatch) :
    (activateLicense now store req).2 = store := by
  rcases activateLicense_write_or_unchanged now store req with hw | hs
  · rcases h with h | h | h <;> rw [hw] at h <;> exact ActivateResult.noConfusion h
  · exact hs

/-- Claim C10 witness: an activate call against an empty collection is
rejected with the store unchanged. -/
theorem activate_failure_no_write_witness :
    (activateLicense 0 [] ownerActivateReq).2 = [] :=
  activate_failure_no_write 0 [] ownerActivateReq (Or.inl (by decide))

/-- Claim C9: a /send-license request missing any of email, userId,
name or phoneNumber, and an /activate-license request missing any of
email, licenseKey or machineId, are answered with the missing-fields
rejection and an unchanged state, for every environment and every
store — no store is read or written. -/
theorem missing_fields_rejected (env : IssueEnv) (st : ServerState) (now : Nat)
    (store : List License) (ireq : IssueRequest) (areq : ActivateRequest) :
    ((ireq.email = none ∨ ireq.userId = none ∨ ireq.name = none ∨ ireq.phoneNumber = none) →
        sendLicense env st ireq = (IssueResult.inputInvalid, st))
      ∧ ((areq.email = none ∨ areq.licenseKey = none ∨ areq.machineId = none) →
        activateLicense now store areq = (ActivateResult.inputInvalid, store)) := by
  constructor
  · intro h
    unfold sendLicense
    rcases h with h | h | h | h <;> rw [h] <;> simp [falsy]
  · intro h
    unfold activateLicense
    rcases h with h | h | h <;> rw [h] <;> simp [falsy]

/-- Claim C9 witness: concrete requests missing the email field are
rejected by both handlers with the state unchanged. -/
theorem missing_fields_rejected_witness :
    sendLicense mailOkEnv baseState
        { email := none, userId := some "U123", name := some "Alice",
          phoneNumber := some "5550001111" }
      = (IssueResult.inputInvalid, baseState)
    ∧ activateLicense 0 []
        { email := none, licenseKey := some "AAAA-AAAA-AAAA", machineId := some "MACH-1" }
      = (ActivateResult.inputInvalid, []) := by
  constructor
  · exact (missing_fields_rejected mailOkEnv baseState 0 []
      { email := none, userId := some "U123", name := some "Alice",
        phoneNumber := some "5550001111" }
      { email := none, licenseKey := some "AAAA-AAAA-AAAA", machineId := some "MACH-1" }).1
      (Or.inl rfl)
  · exact (missing_fields_rejected mailOkEnv baseState 0 []
      { email := none, userId := some "U123", name := some "Alice",
        phoneNumber := some "5550001111" }
      { email := none, licenseKey := some "AAAA-AAAA-AAAA", machineId := some "MACH-1" }).2
      (Or.inl rfl)

end VNashak

namespace VNashak

/-- A call on a record whose status is already ACTIVATED never writes:
whatever the supplied email and machine, the store comes back
unchanged. -/
theorem activate_on_activated_unchanged (now : Nat) (store : List License) (k : String)
    (lic : License) (hfind : findByKey store k = some lic)
    (hstatus : lic.status = "ACTIVATED") (req : ActivateRequest)
    (hk : req.licenseKey = some k) :
    (activateLicense now store req).2 = store := by
  unfold activateLicense
  rw [hk]
  simp only [Option.getD_some]
  split
  · rfl
  · split
    · rfl
    · next stored heq =>
        rw [hfind] at heq
        injection heq with heq
        subst heq
        split
        · rfl
        · split
          · split
            · rfl
            · rfl
          · next hst => exact absurd (by simp [hstatus]) hst

/-- Claim C4: on an ASSIGNED record whose ownerEmail matches the
supplied email, activate succeeds, replacing the record by one with
status ACTIVATED, boundMachineId equal to the supplied machineId and
activatedAt set to the current time — and sets them exactly once at
this transition: every later activate call against this key leaves the
store untouched. -/
theorem activate_assigned_transition (now : Nat) (store : List License)
    (e k m : String) (stored : License)
    (he : e ≠ "") (hk : k ≠ "") (hm : m ≠ "")
    (hfind : findByKey store k = some stored)
    (hmail : stored.email = e) (hstatus : stored.status = "ASSIGNED") :
    activateLicense now store { email := some e, licenseKey := some k, machineId := some m }
        = (ActivateResult.activated, replaceFirst store k (activatedOf stored m now))
      ∧ findByKey (replaceFirst store k (activatedOf stored m now)) k
          = some (activatedOf stored m now)
      ∧ (activatedOf stored m now).status = "ACTIVATED"
      ∧ (activatedOf stored m now).machineId = some m
      ∧ (activatedOf stored m now).activatedAt = some now
      ∧ ∀ now2 req2, req2.licenseKey = some k →
          (activateLicense now2 (replaceFirst store k (activatedOf stored m now)) req2).2
            = replaceFirst store k (activatedOf stored m now) := by
  have hrk : (activatedOf stored m now).licenseKey = k := by
    simpa [activatedOf] using findByKey_some_key store k stored hfind
  have hfind2 : findByKey (replaceFirst store k (activatedOf stored m now)) k
      = some (activatedOf stored m now) :=
    findByKey_replaceFirst k (activatedOf stored m now) hrk store stored hfind
  refine ⟨?_, hfind2, rfl, rfl, rfl, ?_⟩
  · have hAA : (("ASSIGNED" : String) == "ACTIVATED") = false := by decide
    unfold activateLicense
    simp only [falsy, beq_false_of_ne he, beq_false_of_ne hk, beq_false_of_ne hm,
      Bool.or_self, Bool.or_false, Bool.false_or, if_false, Option.getD_some, hfind,
      hmail, bne_self_eq_false, hstatus, hAA, activatedOf]
    simp
  · intro now2 req2 hreq
    exact activate_on_activated_unchanged now2 _ k (activatedOf stored m now) hfind2 rfl req2 hreq

/-- Claim C4 witness: activating the fresh fixture record on MACH-1 at
time 100 yields the activated record. -/
theorem activate_assigned_transition_witness :
    activateLicense 100 [assignedRecord] ownerActivateReq
      = (ActivateResult.activated, [activatedRecord]) :=
  ((activate_assigned_transition 100 [assignedRecord] "a@b.com" "AAAA-AAAA-AAAA" "MACH-1"
      assignedRecord (by decide) (by decide) (by decide) (by decide) rfl rfl).1).trans
    (by decide)

/-- Claim C5 (amended): an ACTIVATED record is never re-bound — every
activate call with a machineId different from the bound one leaves the
store unchanged, and answers MachineMismatch when the supplied email
matches the record (EmailMismatch when it does not). -/
theorem activate_activated_machine_immutable (now : Nat) (store : List License)
    (e k m : String) (stored : License)
    (he : e ≠ "") (hk : k ≠ "") (hm : m ≠ "")
    (hfind : findByKey store k = some stored)
    (hstatus : stored.status = "ACTIVATED")
    (hbound : stored.machineId ≠ some m) :
    (activateLicense now store { email := some e, licenseKey := some k, machineId := some m }).2
        = store
      ∧ (stored.email = e →
          (activateLicense now store { email := some e, licenseKey := some k, machineId := some m }).1
            = ActivateResult.machineMismatch)
      ∧ (stored.email ≠ e →
          (activateLicense now store { email := some e, licenseKey := some k, machineId := some m }).1
            = ActivateResult.emailMismatch) := by
  have hAT : (("ACTIVATED" : String) == "ACTIVATED") = true := by decide
  refine ⟨?_, ?_, ?_⟩
  · exact activate_on_activated_unchanged now store k stored hfind hstatus _ rfl
  · intro hmail
    unfold activateLicense
    simp only [falsy, beq_false_of_ne he, beq_false_of_ne hk, beq_false_of_ne hm,
      Bool.or_self, Bool.or_false, Bool.false_or, if_false, Option.getD_some, hfind,
      hmail, bne_self_eq_false, hstatus, hAT, beq_false_of_ne hbound]
    simp
  · intro hne
    have hbne : (stored.email != e) = true := by
      simp [bne_iff_ne]
      exact hne
    unfold activateLicense
    simp only [falsy, beq_false_of_ne he, beq_false_of_ne hk, beq_false_of_ne hm,
      Bool.or_self, Bool.or_false, Bool.false_or, if_false, Option.getD_some, hfind, hbne]
    simp

/-- Claim C5 witness: the owner asking to re-bind the activated
fixture record to MACH-2 receives MachineMismatch and the record is
untouched. -/
theorem activate_activated_machine_immutable_witness :
    (activateLicense 0 [activatedRecord]
        { email := some "a@b.com", licenseKey := some "AAAA-AAAA-AAAA",
          machineId := some "MACH-2" }).1 = ActivateResult.machineMismatch
    ∧ (activateLicense 0 [activatedRecord]
        { email := some "a@b.com", licenseKey := some "AAAA-AAAA-AAAA",
          machineId := some "MACH-2" }).2 = [activatedRecord] := by
  constructor
  · exact (activate_activated_machine_immutable 0 [activatedRecord] "a@b.com" "AAAA-AAAA-AAAA"
      "MACH-2" activatedRecord (by decide) (by decide) (by decide) (by decide) rfl
      (by decide)).2.1 rfl
  · exact (activate_activated_machine_immutable 0 [activatedRecord] "a@b.com" "AAAA-AAAA-AAAA"
      "MACH-2" activatedRecord (by decide) (by decide) (by decide) (by decide) rfl
      (by decide)).1

/-- Claim C6: activate is idempotent — after a successful activation
with a given key, email and machineId, repeating the same call returns
the AlreadyActivated success variant and leaves the store exactly as
the first call left it. -/
theorem activate_idempotent (now now2 : Nat) (store store2 : List License) (e k m : String)
    (h : activateLicense now store { email := some e, licenseKey := some k, machineId := some m }
          = (ActivateResult.activated, store2)) :
    activateLicense now2 store2 { email := some e, licenseKey := some k, machineId := some m }
      = (ActivateResult.alreadyActivated, store2) := by
  unfold activateLicense at h
  simp only [Option.getD_some] at h
  split at h
  · simp at h
  · next hfa =>
      split at h
      · simp at h
      · next stored heq =>
          split at h
          · simp at h
          · next hemail =>
              split at h
              · split at h
                · simp at h
                · simp at h
              · next hst =>
                  injection h with h1 h2
                  subst h2
                  have hmail : stored.email = e := by
                    simp at hemail
                    exact hemail
                  have hrk : ({ stored with
                      machineId := some m
                      status := "ACTIVATED"
                      activatedAt := some now } : License).licenseKey = k := by
                    simpa using findByKey_some_key store k stored heq
                  have hfind2 := findByKey_replaceFirst k
                    ({ stored with
                      machineId := some m
                      status := "ACTIVATED"
                      activatedAt := some now } : License) hrk store stored heq
                  rw [hmail] at hfind2
                  unfold activateLicense
                  rw [if_neg hfa]
                  rw [hmail]
                  simp only [Option.getD_some, hfind2]
                  simp

/-- Claim C6 witness: repeating the owner activation of the fixture
record answers AlreadyActivated with the store unchanged. -/
theorem activate_idempotent_witness :
    activateLicense 101 [activatedRecord] ownerActivateReq
      = (ActivateResult.alreadyActivated, [activatedRecord]) := by
  have h1 : activateLicense 100 [assignedRecord] ownerActivateReq
      = (ActivateResult.activated, [activatedRecord]) := by decide
  exact activate_idempotent 100 101 [assignedRecord] [activatedRecord] "a@b.com"
    "AAAA-AAAA-AAAA" "MACH-1" h1

end VNashak

namespace VNashak

/-- Whenever /send-license answers with either success shape, the
requesting user id has been marked used in the returned state. -/
theorem sendLicense_success_consumes (env : IssueEnv) (st : ServerState) (req : IssueRequest) :
    ((∃ k2, (sendLicense env st req).1 = IssueResult.successNoEmail k2)
        ∨ (sendLicense env st req).1 = IssueResult.successEmailSent) →
      (sendLicense env st req).2.usedUserIds.contains (req.userId.getD "") = true := by
  unfold sendLicense
  split
  · simp
  · split
    · simp
    · split
      · simp
      · split
        · simp
        · split
          · intro hsucc
            simp [markUserIdAsUsed]
          · split
            · intro hsucc
              simp [markUserIdAsUsed]
            · simp

/-- Claim C1 (amended): a successful issue always leaves the identity
consumed, but consumption happens only after delivery — when email is
configured and `sendMail` fails after the record has been persisted,
the handler answers with an internal error whose state keeps the
persisted LicenseRecord while the identity stays un-consumed (the
record is never deleted, yet consumed-iff-issued is broken by delivery
failure). -/
theorem sendLicense_consumption (env : IssueEnv) (st : ServerState) (req : IssueRequest)
    (userId : String) (hid : req.userId = some userId) :
    (((∃ k2, (sendLicense env st req).1 = IssueResult.successNoEmail k2)
        ∨ (sendLicense env st req).1 = IssueResult.successEmailSent) →
      (sendLicense env st req).2.usedUserIds.contains userId = true)
    ∧ (∀ k, env.emailConfigured = true → env.sendMailOk = false →
        falsy req.email = false → falsy req.userId = false →
        falsy req.name = false → falsy req.phoneNumber = false →
        (validateUserIdDirectAndUnused st userId).valid = true →
        generateUniqueLicenseKey env.randomDraws (existsKey st.licenses) env.fuel = some k →
        existsKey (st.licenses ++ env.interference) k = false →
        sendLicense env st req
          = (IssueResult.internalError,
              { st with licenses := st.licenses ++ [mkLicense req k] })) := by
  constructor
  · intro hsucc
    have hc := sendLicense_success_consumes env st req hsucc
    rwa [hid, Option.getD_some] at hc
  · intro k hec hsm hfe hfu hfn hfp hv hgen hcol
    unfold sendLicense
    simp only [hfe, hfu, hfn, hfp]
    simp only [hid, Option.getD_some, hv, hgen, hcol, hec, hsm]
    simp

/-- Claim C1 witness: a successful run consumes U123, and the
mail-failure run returns an internal error with the record persisted
and U123 not consumed. -/
theorem sendLicense_consumption_witness :
    (sendLicense mailOkEnv baseState fullRequest).2.usedUserIds.contains "U123" = true
    ∧ sendLicense mailFailEnv baseState fullRequest
        = (IssueResult.internalError,
            { baseState with
              licenses := baseState.licenses ++ [mkLicense fullRequest "AAAA-AAAA-AAAA"] }) := by
  constructor
  · exact (sendLicense_consumption mailOkEnv baseState fullRequest "U123" rfl).1
      (Or.inr (by decide))
  · exact (sendLicense_consumption mailFailEnv baseState fullRequest "U123" rfl).2
      "AAAA-AAAA-AAAA" rfl rfl (by decide) (by decide) (by decide) (by decide)
      (by decide) (by decide) (by decide)

/-- Claim C2 (amended): after the generator's pre-check loop returns a
candidate, persistence is attempted exactly once — when that insertion
fails because the key already exists in the shared collection, the
handler surfaces an internal error with the state unchanged instead of
regenerating and retrying, so the pre-check (whose answer for the
returned key was `absent`) is the only uniqueness gate the forward
path repeats. -/
theorem sendLicense_insert_failure_not_retried (env : IssueEnv) (st : ServerState)
    (req : IssueRequest) (userId k : String)
    (hid : req.userId = some userId)
    (hfe : falsy req.email = false) (hfu : falsy req.userId = false)
    (hfn : falsy req.name = false) (hfp : falsy req.phoneNumber = false)
    (hv : (validateUserIdDirectAndUnused st userId).valid = true)
    (hgen : generateUniqueLicenseKey env.randomDraws (existsKey st.licenses) env.fuel = some k)
    (hcol : existsKey (st.licenses ++ env.interference) k = true) :
    sendLicense env st req = (IssueResult.internalError, st)
      ∧ existsKey st.licenses k = false := by
  constructor
  · unfold sendLicense
    simp only [hfe, hfu, hfn, hfp]
    simp only [hid, Option.getD_some, hv, hgen, hcol]
    simp
  · unfold generateUniqueLicenseKey at hgen
    exact (genLoop_spec _ (existsKey st.licenses) env.fuel 0 k hgen).1

/-- Claim C2 witness: the raced fixture run ends in an internal error
with nothing persisted, though the key passed the pre-check. -/
theorem sendLicense_insert_failure_not_retried_witness :
    sendLicense raceEnv baseState fullRequest = (IssueResult.internalError, baseState)
      ∧ existsKey baseState.licenses "AAAA-AAAA-AAAA" = false := by
  exact sendLicense_insert_failure_not_retried raceEnv baseState fullRequest "U123"
    "AAAA-AAAA-AAAA" rfl (by decide) (by decide) (by decide) (by decide) (by decide)
    (by decide) (by decide)

end VNashak
